import Mathlib

/-!
# Led component: blink controller and colour command handler

A shallow embedding of `Components/Led/Led.cpp`.

* The component's members `state`, `transitions`, `count`, `blinking` form the
  record `Led`.  Every handler is a function from the state before the call to
  the state after it, paired with the list of outward calls it made, in program
  order (`Effect`): telemetry writes, log events, pixel driver calls and the
  command response.
* `interval` is declared `U32` in the source and `count` is the 32-bit tick
  counter; values are natural numbers and the one addition on `count` is reduced
  modulo `2 ^ 32` where the source computes it.
* `transitions` is an unsigned counter whose declared type is given in the header
  `Led.hpp`.  Its modulus is a parameter `tmod` of `run_handler` (`2 ^ 64` for a `U64`
  member, `2 ^ 32` for a `U32` one), so every result holds for each width; `tmod = 0`
  describes a counter that never wraps, since `n % 0 = n`.
* `parameterUpdated` contains an assertion; a call on which it fires does not return,
  which is the result `none`.  Sequences of calls (`runOps`) start from the constructor
  and collect all outward calls; the colour the LED displays (`rendered`) is computed
  from them.  `lastEnabledSeen` and `shownPalette` read off a call sequence the two
  facts of its history that the tick counter and the displayed colour depend on.
* A command argument of an enumeration type may carry a raw value that is none of the
  enumerators; `OnArg` and `ColorsArg` keep that case apart.  The member `state` is only
  ever assigned `Fw::On::OFF` or `Fw::On::ON` and has the two-valued type `On`.
-/

namespace Components

/-! ## Framework types used by the component -/

/-- The two enumerators of `Fw::On`. -/
inductive On where
  | OFF
  | ON
  deriving DecidableEq

/-- A value of type `Fw::On` as a command handler receives it: either one of the
enumerators, for which `isValid()` holds, or a raw value `e` that is none of them. -/
inductive OnArg where
  | valid (v : On)
  | invalid (e : Int)
  deriving DecidableEq

/-- The generated `Fw::On::isValid()`. -/
def OnArg.isValid : OnArg → Bool
  | .valid _ => true
  | .invalid _ => false

/-- The members of `Fw::ParamValid`. -/
inductive ParamValid where
  | VALID
  | INVALID
  | UNINIT
  | DEFAULT
  deriving DecidableEq

/-- The members of `Fw::CmdResponse` the component answers with. -/
inductive CmdResponse where
  | OK
  | VALIDATION_ERROR
  deriving DecidableEq

/-- The eight case labels of the `switch` in `SET_LED_COLOR_cmdHandler`. -/
inductive Colors where
  | RED
  | ORANGE
  | YELLOW
  | GREEN
  | BLUE
  | INDIGO
  | VIOLET
  | OFF
  deriving DecidableEq

/-- A value of type `Components::Colors` as the handler receives it: a palette member,
or a raw `color.e` matching no case label (the `default:` branch). -/
inductive ColorsArg where
  | valid (c : Colors)
  | invalid (e : Int)
  deriving DecidableEq

/-- The colour built by `pixels.Color(r, g, b)`, kept as its three components. -/
structure Rgb where
  r : Nat
  g : Nat
  b : Nat
  deriving DecidableEq

/-- The call `pixels.Color(r, g, b)`. -/
def Color (r g b : Nat) : Rgb := ⟨r, g, b⟩

/-- The outward calls of the component, one constructor per callee. -/
inductive Effect where
  | pixels_begin
  | pixels_setPixelColor (n : Nat) (c : Rgb)
  | pixels_show
  | tlmWrite_LedTransitions (arg : Nat)
  | tlmWrite_BlinkingState (arg : OnArg)
  | log_WARNING_LO_InvalidBlinkArgument (arg : OnArg)
  | log_ACTIVITY_HI_SetBlinkingState (arg : OnArg)
  | log_WARNING_LO_InvalidColorArgument (arg : ColorsArg)
  | log_ACTIVITY_HI_BlinkIntervalSet (arg : Nat)
  | cmdResponse_out (opCode : Nat) (cmdSeq : Nat) (response : CmdResponse)
  deriving DecidableEq

/-! ## The component -/

/-- The modulus of `U32` arithmetic. -/
def U32_MOD : Nat := 2 ^ 32

/-- The member variables of `Led` that the handlers read and write. -/
structure Led where
  state : On
  transitions : Nat
  count : Nat
  blinking : Bool
  deriving DecidableEq

/-- The constructor `Led::Led`: the member initialisers, then `pixels.begin()`. -/
def Led.Led : Led × List Effect :=
  ({ state := On.OFF, transitions := 0, count := 0, blinking := false }, [Effect.pixels_begin])

/-- Handler `Led::run_handler`.  The pair `interval`, `isValid` is what
`paramGet_BLINK_INTERVAL(isValid)` returns; the unused `portNum` and `context`
are left out.  `tmod` is the modulus of the type of `transitions`. -/
def run_handler (tmod : Nat) (interval : Nat) (isValid : ParamValid) (s : Led) :
    Led × List Effect :=
  -- Force interval to be 0 when invalid or not set
  let interval := if ParamValid.INVALID = isValid ∨ ParamValid.UNINIT = isValid then 0 else interval
  let is_blinking := s.blinking
  if is_blinking then
    let new_state : On :=
      if 0 = s.count ∧ s.state = On.OFF then On.ON
      else if interval / 2 = s.count ∧ s.state = On.ON then On.OFF
      else s.state
    -- A transition has occurred
    let r : Led × List Effect :=
      if s.state ≠ new_state then
        let transitions := (s.transitions + 1) % tmod
        ({ s with transitions := transitions, state := new_state },
          [Effect.tlmWrite_LedTransitions transitions,
           (if On.ON = new_state then Effect.pixels_setPixelColor 0 (Color 150 0 0)
            else Effect.pixels_setPixelColor 0 (Color 0 0 0)),
           Effect.pixels_show,
           Effect.tlmWrite_BlinkingState (OnArg.valid new_state)])
      else (s, [])
    ({ r.1 with count :=
        if (r.1.count + 1) % U32_MOD ≥ interval then 0 else (r.1.count + 1) % U32_MOD }, r.2)
  else
    if s.state = On.ON then
      ({ s with state := On.OFF },
        [Effect.pixels_setPixelColor 0 (Color 0 0 0),
         Effect.pixels_show,
         Effect.tlmWrite_BlinkingState (OnArg.valid On.OFF)])
    else (s, [])

/-- Handler `Led::BLINKING_ON_OFF_cmdHandler`; the response is sent on both paths. -/
def BLINKING_ON_OFF_cmdHandler (opCode cmdSeq : Nat) (on_off : OnArg) (s : Led) :
    Led × List Effect :=
  if !on_off.isValid then
    (s, [Effect.log_WARNING_LO_InvalidBlinkArgument on_off,
         Effect.cmdResponse_out opCode cmdSeq CmdResponse.VALIDATION_ERROR])
  else
    ({ s with count := 0, blinking := decide (OnArg.valid On.ON = on_off) },
      [Effect.log_ACTIVITY_HI_SetBlinkingState on_off,
       Effect.tlmWrite_BlinkingState on_off,
       Effect.cmdResponse_out opCode cmdSeq CmdResponse.OK])

/-- Handler `Led::SET_LED_COLOR_cmdHandler`: each case label sets pixel 0, the code after the
`switch` shows it and answers OK; the `default:` branch returns early. -/
def SET_LED_COLOR_cmdHandler (opCode cmdSeq : Nat) (color : ColorsArg) (s : Led) :
    Led × List Effect :=
  let after_switch (c : Rgb) : Led × List Effect :=
    (s, [Effect.pixels_setPixelColor 0 c,
         Effect.pixels_show,
         Effect.cmdResponse_out opCode cmdSeq CmdResponse.OK])
  match color with
  | ColorsArg.valid Colors.RED => after_switch (Color 255 0 0)
  | ColorsArg.valid Colors.ORANGE => after_switch (Color 255 165 0)
  | ColorsArg.valid Colors.YELLOW => after_switch (Color 255 255 0)
  | ColorsArg.valid Colors.GREEN => after_switch (Color 0 255 0)
  | ColorsArg.valid Colors.BLUE => after_switch (Color 0 0 255)
  | ColorsArg.valid Colors.INDIGO => after_switch (Color 75 0 130)
  | ColorsArg.valid Colors.VIOLET => after_switch (Color 238 130 238)
  | ColorsArg.valid Colors.OFF => after_switch (Color 0 0 0)
  | ColorsArg.invalid _ =>
    (s, [Effect.log_WARNING_LO_InvalidColorArgument color,
         Effect.cmdResponse_out opCode cmdSeq CmdResponse.VALIDATION_ERROR])

/-! ## Tick sequences -/

/-- The interval a tick works with after the validity substitution of `run_handler`. -/
def seenInterval (r : Nat × ParamValid) : Nat :=
  if ParamValid.INVALID = r.2 ∨ ParamValid.UNINIT = r.2 then 0 else r.1

/-- Consecutive calls of `run_handler`, one per parameter reading in `rs`: the state
after each call together with the effects of that call. -/
def tickTrace (tmod : Nat) : List (Nat × ParamValid) → Led → List (Led × List Effect)
  | [], _ => []
  | r :: rs, s =>
    let out := run_handler tmod r.1 r.2 s
    out :: tickTrace tmod rs out.1

/-- The state after consecutive calls of `run_handler`, one per reading in `rs`. -/
def ticks (tmod : Nat) : List (Nat × ParamValid) → Led → Led
  | [], s => s
  | r :: rs, s => ticks tmod rs (run_handler tmod r.1 r.2 s).1

/-- The fixed palette of the specification: the RGB triple of each named colour. -/
def paletteRgb : Colors → Rgb
  | Colors.RED => ⟨255, 0, 0⟩
  | Colors.ORANGE => ⟨255, 165, 0⟩
  | Colors.YELLOW => ⟨255, 255, 0⟩
  | Colors.GREEN => ⟨0, 255, 0⟩
  | Colors.BLUE => ⟨0, 0, 255⟩
  | Colors.INDIGO => ⟨75, 0, 130⟩
  | Colors.VIOLET => ⟨238, 130, 238⟩
  | Colors.OFF => ⟨0, 0, 0⟩

/-- The closed form of the blink cycle: the component state after `n + 1` enabled ticks
at interval `I`, started from OFF with `count = 0` and transition counter `t0`. -/
def cycleState (tmod I t0 n : Nat) : Led :=
  { state := if n % I < I / 2 then On.ON else On.OFF
    transitions := (t0 + (2 * (n / I) + (if n % I < I / 2 then 1 else 2))) % tmod
    count := (n + 1) % I
    blinking := true }

/-- The state a blink cycle starts from: LED OFF, `count = 0`, blinking enabled, with
`t0` on the transition counter. -/
def blinkStart (t0 : Nat) : Led :=
  { state := On.OFF, transitions := t0, count := 0, blinking := true }

/-- The number of changes of value along the sequence `a :: l` of LED states. -/
def countFlips : On → List On → Nat
  | _, [] => 0
  | a, b :: l => (if a ≠ b then 1 else 0) + countFlips b l

/-! ## Parameter notification, the pixel, and call sequences -/

/-- Handler `Led::parameterUpdated`.  The pair `interval`, `isValid` is what
`paramGet_BLINK_INTERVAL(isValid)` returns and `PARAMID_BLINK_INTERVAL` is the generated
parameter id.  `FW_ASSERT(isValid == Fw::ParamValid::VALID, isValid)` is taken as active:
when it fires the call does not return, which is the result `none`. -/
def parameterUpdated (PARAMID_BLINK_INTERVAL id interval : Nat) (isValid : ParamValid)
    (s : Led) : Option (Led × List Effect) :=
  if isValid = ParamValid.VALID then
    if PARAMID_BLINK_INTERVAL = id then
      some (s, [Effect.log_ACTIVITY_HI_BlinkIntervalSet interval])
    else some (s, [])
  else none

/-- The number of pixels the driver is constructed with (`#define NUMPIXELS 1`). -/
def NUMPIXELS : Nat := 1

/-- The pixel as the driver holds it: `pending` is the colour last stored by
`setPixelColor`, `shown` the colour the LED displays, which is the stored colour at the
last `show()`. -/
structure Pixel where
  pending : Rgb
  shown : Rgb
  deriving DecidableEq

/-- The pixel at construction: nothing stored, LED dark. -/
def Pixel.dark : Pixel := { pending := ⟨0, 0, 0⟩, shown := ⟨0, 0, 0⟩ }

/-- The change one outward call makes to the pixel: `setPixelColor(n, c)` stores `c` for
an existing pixel index, `show()` displays what is stored, other calls leave it alone. -/
def Pixel.apply (p : Pixel) : Effect → Pixel
  | Effect.pixels_setPixelColor n c => if n < NUMPIXELS then { p with pending := c } else p
  | Effect.pixels_show => { p with shown := p.pending }
  | _ => p

/-- The colour the LED displays after the outward calls `fx`, made since construction. -/
def rendered (fx : List Effect) : Rgb := (fx.foldl Pixel.apply Pixel.dark).shown

/-- The calls the framework makes on the component, with their arguments and, for the two
handlers that read the parameter, the reading they get. -/
inductive Op where
  | run (interval : Nat) (isValid : ParamValid)
  | BLINKING_ON_OFF (opCode cmdSeq : Nat) (on_off : OnArg)
  | SET_LED_COLOR (opCode cmdSeq : Nat) (color : ColorsArg)
  | parameterUpdated (id interval : Nat) (isValid : ParamValid)
  deriving DecidableEq

/-- One call on the component in state `s`; `none` when the call does not return. -/
def callOp (tmod PARAMID_BLINK_INTERVAL : Nat) (op : Op) (s : Led) :
    Option (Led × List Effect) :=
  match op with
  | Op.run interval isValid => some (run_handler tmod interval isValid s)
  | Op.BLINKING_ON_OFF opCode cmdSeq on_off =>
    some (BLINKING_ON_OFF_cmdHandler opCode cmdSeq on_off s)
  | Op.SET_LED_COLOR opCode cmdSeq color => some (SET_LED_COLOR_cmdHandler opCode cmdSeq color s)
  | Op.parameterUpdated id interval isValid =>
    parameterUpdated PARAMID_BLINK_INTERVAL id interval isValid s

/-- A sequence of calls, from the component state `w.1` and the outward calls `w.2` made
so far: the final state with all outward calls in order, or `none` if an assertion
fired. -/
def runOps (tmod PARAMID_BLINK_INTERVAL : Nat) : List Op → Led × List Effect →
    Option (Led × List Effect)
  | [], w => some w
  | op :: ops, w =>
    match callOp tmod PARAMID_BLINK_INTERVAL op w.1 with
    | some out => runOps tmod PARAMID_BLINK_INTERVAL ops (out.1, w.2 ++ out.2)
    | none => none

/-- The parameter value a call reads is a `U32` value. -/
def Op.readsU32 : Op → Bool
  | Op.run interval _ => decide (interval < U32_MOD)
  | Op.parameterUpdated _ interval _ => decide (interval < U32_MOD)
  | _ => true

/-- History of the tick counter along the calls `ops`, made from component state `s`: the
interval seen by the most recent tick that ran with blinking enabled since construction
or since the last blinking command with a valid argument (both leave `count = 0`), and
`none` if there has been no such tick.  `b` is the value for the calls made before
`ops`. -/
def lastEnabledSeen (tmod PARAMID_BLINK_INTERVAL : Nat) :
    List Op → Led → Option Nat → Option Nat
  | [], _, b => b
  | op :: ops, s, b =>
    match callOp tmod PARAMID_BLINK_INTERVAL op s with
    | none => b
    | some out =>
      lastEnabledSeen tmod PARAMID_BLINK_INTERVAL ops out.1
        (match op with
         | Op.run interval isValid =>
           if s.blinking = true then some (seenInterval (interval, isValid)) else b
         | Op.BLINKING_ON_OFF _ _ on_off => if on_off.isValid = true then none else b
         | _ => b)

/-- History of the pixel along the calls `ops`, made from component state `s`: the
palette member of the most recent colour command that rendered, provided no tick has
changed the LED state since that command, and `none` otherwise (also when no colour
command has rendered at all).  `g` is the value for the calls made before `ops`. -/
def shownPalette (tmod PARAMID_BLINK_INTERVAL : Nat) :
    List Op → Led → Option Colors → Option Colors
  | [], _, g => g
  | op :: ops, s, g =>
    match callOp tmod PARAMID_BLINK_INTERVAL op s with
    | none => g
    | some out =>
      shownPalette tmod PARAMID_BLINK_INTERVAL ops out.1
        (match op with
         | Op.SET_LED_COLOR _ _ (ColorsArg.valid c) => some c
         | Op.run _ _ => if out.1.state = s.state then g else none
         | _ => g)

/-! ## Helper lemmas -/

lemma run_handler_disabled (tmod interval : Nat) (isValid : ParamValid) (s : Led)
    (hb : s.blinking = false) :
    run_handler tmod interval isValid s =
      if s.state = On.ON then
        ({ s with state := On.OFF },
          [Effect.pixels_setPixelColor 0 (Color 0 0 0), Effect.pixels_show,
           Effect.tlmWrite_BlinkingState (OnArg.valid On.OFF)])
      else (s, []) := by
  simp [run_handler, hb]

lemma run_handler_disabled_off (tmod interval : Nat) (isValid : ParamValid) (s : Led)
    (hb : s.blinking = false) (hs : s.state = On.OFF) :
    run_handler tmod interval isValid s = (s, []) := by
  simp [run_handler, hb, hs]

lemma ticks_disabled_off (tmod : Nat) (rs : List (Nat × ParamValid)) (s : Led)
    (hb : s.blinking = false) (hs : s.state = On.OFF) :
    ticks tmod rs s = s := by
  induction rs with
  | nil => rfl
  | cons r rs ih => simp [ticks, run_handler_disabled_off tmod r.1 r.2 s hb hs, ih]

lemma tickTrace_disabled_off (tmod : Nat) (rs : List (Nat × ParamValid)) (s : Led)
    (hb : s.blinking = false) (hs : s.state = On.OFF) :
    ∀ o ∈ tickTrace tmod rs s, o = (s, []) := by
  induction rs with
  | nil => simp [tickTrace]
  | cons r rs ih =>
    intro o ho
    simp only [tickTrace, run_handler_disabled_off tmod r.1 r.2 s hb hs, List.mem_cons] at ho
    rcases ho with h | h
    · exact h
    · exact ih o h

/-! ## The blink cycle -/

lemma succ_div_mod (n I : Nat) (hI : 0 < I) :
    (n % I + 1 < I ∧ (n + 1) % I = n % I + 1 ∧ (n + 1) / I = n / I) ∨
    (n % I + 1 = I ∧ (n + 1) % I = 0 ∧ (n + 1) / I = n / I + 1) := by
  have h := Nat.div_add_mod n I
  have hlt := Nat.mod_lt n hI
  by_cases c : n % I + 1 < I
  · left
    have h1 : (n + 1) / I = n / I ∧ (n + 1) % I = n % I + 1 :=
      (Nat.div_mod_unique hI).2 ⟨by omega, c⟩
    exact ⟨c, h1.2, h1.1⟩
  · right
    have hc : n % I + 1 = I := by omega
    have h1 : (n + 1) / I = n / I + 1 ∧ (n + 1) % I = 0 :=
      (Nat.div_mod_unique hI).2 ⟨by rw [Nat.mul_add]; omega, hI⟩
    exact ⟨hc, h1.2, h1.1⟩

lemma run_handler_seen (tmod interval : Nat) (isValid : ParamValid) (s : Led) :
    run_handler tmod interval isValid s =
      run_handler tmod (seenInterval (interval, isValid)) ParamValid.VALID s := by
  simp [run_handler, seenInterval]

lemma ticks_append (tmod : Nat) (rs : List (Nat × ParamValid)) (r : Nat × ParamValid) (s : Led) :
    ticks tmod (rs ++ [r]) s = (run_handler tmod r.1 r.2 (ticks tmod rs s)).1 := by
  induction rs generalizing s with
  | nil => rfl
  | cons a rs ih => simp [ticks, ih]

lemma cycle_first (tmod I t0 : Nat) (hI : 2 ≤ I) :
    (run_handler tmod I ParamValid.VALID
        { state := On.OFF, transitions := t0, count := 0, blinking := true }).1 =
      cycleState tmod I t0 0 := by
  have h1 : (1 : Nat) % U32_MOD = 1 := by simp [U32_MOD]
  have h2 : 0 < I / 2 := by omega
  have h3 : 1 % I = 1 := Nat.mod_eq_of_lt (by omega)
  simp [run_handler, cycleState, h1, h2, h3]
  omega

lemma cycle_step (tmod I t0 n : Nat) (hI : 2 ≤ I) (hU : I < U32_MOD) :
    (run_handler tmod I ParamValid.VALID (cycleState tmod I t0 n)).1 =
      cycleState tmod I t0 (n + 1) := by
  have hlt1 := Nat.mod_lt (n + 1) (show 0 < I by omega)
  have hm : ((n + 1) % I + 1) % U32_MOD = (n + 1) % I + 1 :=
    Nat.mod_eq_of_lt (by omega)
  have hadd : ∀ a : Nat, (a % tmod + 1) % tmod = (a + 1) % tmod := fun a => Nat.mod_add_mod a tmod 1
  have h0 : 0 < I / 2 := by omega
  rcases succ_div_mod n I (by omega) with ⟨a1, a2, a3⟩ | ⟨a1, a2, a3⟩ <;>
  rcases succ_div_mod (n + 1) I (by omega) with ⟨b1, b2, b3⟩ | ⟨b1, b2, b3⟩ <;>
  · rw [a2] at hm b1
    simp only [run_handler, cycleState, hm, a2, a3, b2]
    generalize n % I = c at *
    generalize n / I = q at *
    by_cases h1 : c < I / 2 <;> by_cases h2 : c + 1 < I / 2 <;>
      by_cases h3 : I / 2 = c + 1 <;>
      simp [h1, h2, h3, h0, hadd, hm]
    all_goals first
      | omega
      | (refine ⟨?_, ?_⟩ <;> first | omega | congr 1)

lemma ticks_cycle (tmod I t0 : Nat) (hI : 2 ≤ I) (hU : I < U32_MOD)
    (rs : List (Nat × ParamValid)) (hrs : ∀ r ∈ rs, seenInterval r = I) (hk : 1 ≤ rs.length) :
    ticks tmod rs { state := On.OFF, transitions := t0, count := 0, blinking := true } =
      cycleState tmod I t0 (rs.length - 1) := by
  induction rs using List.reverseRecOn with
  | nil => simp at hk
  | append_singleton rs r ih =>
    have hr : seenInterval (r.1, r.2) = I := hrs r (by simp)
    rw [ticks_append, run_handler_seen, hr]
    rcases rs with _ | ⟨a, rs⟩
    · simpa [ticks] using cycle_first tmod I t0 hI
    · have ih' := ih (fun x hx => hrs x (by simp at hx ⊢; tauto)) (by simp)
      rw [ih']
      simpa using cycle_step tmod I t0 rs.length hI hU

lemma toggle_step (tmod interval t : Nat) (st : On) (hi : interval ≤ 1) :
    run_handler tmod interval ParamValid.VALID
        { state := st, transitions := t, count := 0, blinking := true } =
      ({ state := if st = On.OFF then On.ON else On.OFF, transitions := (t + 1) % tmod,
         count := 0, blinking := true },
        [Effect.tlmWrite_LedTransitions ((t + 1) % tmod),
         (if st = On.OFF then Effect.pixels_setPixelColor 0 (Color 150 0 0)
          else Effect.pixels_setPixelColor 0 (Color 0 0 0)),
         Effect.pixels_show,
         Effect.tlmWrite_BlinkingState
           (OnArg.valid (if st = On.OFF then On.ON else On.OFF))]) := by
  have h1 : (1 : Nat) % U32_MOD = 1 := by simp [U32_MOD]
  have h2 : interval / 2 = 0 := by omega
  cases st <;> simp [run_handler, h1, h2, hi]

lemma toggle_next (tmod t0 : Nat) (rs : List (Nat × ParamValid)) :
    ∀ r : Nat × ParamValid, (∀ x ∈ rs, seenInterval x = 0) → seenInterval r = 0 →
    run_handler tmod r.1 r.2 (ticks tmod rs (blinkStart t0)) =
      ({ state := if rs.length % 2 = 0 then On.ON else On.OFF,
         transitions := (t0 + rs.length + 1) % tmod, count := 0, blinking := true },
        [Effect.tlmWrite_LedTransitions ((t0 + rs.length + 1) % tmod),
         (if rs.length % 2 = 0 then Effect.pixels_setPixelColor 0 (Color 150 0 0)
          else Effect.pixels_setPixelColor 0 (Color 0 0 0)),
         Effect.pixels_show,
         Effect.tlmWrite_BlinkingState
           (OnArg.valid (if rs.length % 2 = 0 then On.ON else On.OFF))]) := by
  induction rs using List.reverseRecOn with
  | nil =>
    intro r _ hr
    have hr' : seenInterval (r.1, r.2) = 0 := hr
    rw [run_handler_seen, hr']
    simpa [ticks, blinkStart] using toggle_step tmod 0 t0 On.OFF (by omega)
  | append_singleton rs x ih =>
    intro r hrs hr
    have hr' : seenInterval (r.1, r.2) = 0 := hr
    have ih' := ih x (fun y hy => hrs y (by simp; tauto)) (hrs x (by simp))
    rw [ticks_append, ih', run_handler_seen, hr', toggle_step _ _ _ _ (by omega)]
    have hadd : ((t0 + rs.length + 1) % tmod + 1) % tmod = (t0 + (rs.length + 1) + 1) % tmod :=
      Nat.mod_add_mod _ tmod 1
    simp only [List.length_append, List.length_singleton, hadd]
    rcases Nat.mod_two_eq_zero_or_one rs.length with h | h
    · have h' : (rs.length + 1) % 2 = 1 := by omega
      simp [h, h']
    · have h' : (rs.length + 1) % 2 = 0 := by omega
      simp [h, h']

lemma run_handler_blinking (tmod interval : Nat) (isValid : ParamValid) (s : Led) :
    (run_handler tmod interval isValid s).1.blinking = s.blinking := by
  rcases s with ⟨st, t, c, b⟩
  cases b <;> cases st <;> simp [run_handler] <;> split_ifs <;> rfl

lemma run_handler_transitions (tmod interval : Nat) (isValid : ParamValid) (s : Led) :
    (run_handler tmod interval isValid s).1.transitions =
      if s.blinking = true ∧ (run_handler tmod interval isValid s).1.state ≠ s.state then
        (s.transitions + 1) % tmod
      else s.transitions := by
  rcases s with ⟨st, t, c, b⟩
  cases b <;> cases st <;> simp [run_handler] <;> split_ifs <;> simp_all

lemma run_handler_transitions_range (tmod interval : Nat) (isValid : ParamValid) (s : Led)
    (ht : tmod = 0 ∨ s.transitions < tmod) :
    tmod = 0 ∨ (run_handler tmod interval isValid s).1.transitions < tmod := by
  rcases ht with h0 | hlt
  · exact Or.inl h0
  · right
    rw [run_handler_transitions]
    split_ifs
    · exact Nat.mod_lt _ (by omega)
    · exact hlt

lemma ticks_transitions (tmod : Nat) (rs : List (Nat × ParamValid)) :
    ∀ s : Led, (tmod = 0 ∨ s.transitions < tmod) →
      (ticks tmod rs s).transitions =
        if s.blinking = true then
          (s.transitions +
            countFlips s.state ((tickTrace tmod rs s).map (fun o => o.1.state))) % tmod
        else s.transitions := by
  induction rs with
  | nil =>
    intro s ht
    have : s.transitions % tmod = s.transitions := by
      rcases ht with h0 | hlt
      · simp [h0]
      · exact Nat.mod_eq_of_lt hlt
    simp [ticks, tickTrace, countFlips, this]
  | cons r rs ih =>
    intro s ht
    have h1 := ih (run_handler tmod r.1 r.2 s).1 (run_handler_transitions_range _ _ _ _ ht)
    simp only [ticks, tickTrace, List.map_cons, countFlips]
    rw [h1, run_handler_blinking, run_handler_transitions]
    cases hb : s.blinking
    · simp
    · by_cases hf : (run_handler tmod r.1 r.2 s).1.state = s.state
      · simp [hf]
      · have hf' : ¬ s.state = (run_handler tmod r.1 r.2 s).1.state := fun h => hf h.symm
        simp only [hf, hf', true_and, ne_eq, not_false_eq_true, if_true]
        rw [Nat.mod_add_mod]
        congr 1
        omega

/-! ## Single ticks and call sequences -/

lemma run_handler_count (tmod interval : Nat) (isValid : ParamValid) (s : Led) :
    (run_handler tmod interval isValid s).1.count =
      if s.blinking = true then
        (if seenInterval (interval, isValid) ≤ (s.count + 1) % U32_MOD then 0
         else (s.count + 1) % U32_MOD)
      else s.count := by
  rw [run_handler_seen]
  generalize seenInterval (interval, isValid) = I
  rcases s with ⟨st, t, c, b⟩
  cases b <;> cases st <;> simp [run_handler] <;> split_ifs <;> simp_all

lemma run_handler_state (tmod interval : Nat) (isValid : ParamValid) (s : Led) :
    (run_handler tmod interval isValid s).1.state =
      if s.blinking = true then
        (if s.count = 0 ∧ s.state = On.OFF then On.ON
         else if s.count = seenInterval (interval, isValid) / 2 ∧ s.state = On.ON then On.OFF
         else s.state)
      else On.OFF := by
  rw [run_handler_seen]
  generalize seenInterval (interval, isValid) = I
  rcases s with ⟨st, t, c, b⟩
  cases b <;> cases st <;> simp [run_handler] <;> split_ifs <;> simp_all

lemma run_handler_effects (tmod interval : Nat) (isValid : ParamValid) (s : Led) :
    (run_handler tmod interval isValid s).2 =
      if (run_handler tmod interval isValid s).1.state = s.state then []
      else if s.blinking = true then
        [Effect.tlmWrite_LedTransitions ((s.transitions + 1) % tmod),
         Effect.pixels_setPixelColor 0
           (if (run_handler tmod interval isValid s).1.state = On.ON then Color 150 0 0
            else Color 0 0 0),
         Effect.pixels_show,
         Effect.tlmWrite_BlinkingState (OnArg.valid (run_handler tmod interval isValid s).1.state)]
      else
        [Effect.pixels_setPixelColor 0 (Color 0 0 0), Effect.pixels_show,
         Effect.tlmWrite_BlinkingState (OnArg.valid On.OFF)] := by
  rcases s with ⟨st, t, c, b⟩
  cases b <;> cases st <;> simp [run_handler] <;> split_ifs <;> simp_all

lemma runOps_invariant (tmod pid : Nat) (P : Led × List Effect → Prop) (good : Op → Prop)
    (hstep : ∀ (op : Op) (s : Led) (fx : List Effect) (out : Led × List Effect),
      good op → P (s, fx) → callOp tmod pid op s = some out → P (out.1, fx ++ out.2)) :
    ∀ (ops : List Op) (w : Led × List Effect), (∀ op ∈ ops, good op) → P w →
      ∀ w' : Led × List Effect, runOps tmod pid ops w = some w' → P w' := by
  intro ops
  induction ops with
  | nil =>
    intro w _ hw w' h
    simp only [runOps, Option.some.injEq] at h
    exact h ▸ hw
  | cons op ops ih =>
    intro w hg hw w' h
    simp only [runOps] at h
    cases hc : callOp tmod pid op w.1 with
    | none => simp [hc] at h
    | some out =>
      simp only [hc] at h
      exact ih (out.1, w.2 ++ out.2) (fun o ho => hg o (List.mem_cons_of_mem _ ho))
        (hstep op w.1 w.2 out (hg op (List.mem_cons_self _ _)) hw hc) w' h

lemma ticks_short (tmod : Nat) (rs : List (Nat × ParamValid)) :
    ∀ s : Led, s.blinking = true → s.count = 0 → (∀ x ∈ rs, seenInterval x ≤ 1) →
      (ticks tmod rs s).blinking = true ∧ (ticks tmod rs s).count = 0 := by
  induction rs with
  | nil => intro s hb hc _; exact ⟨hb, hc⟩
  | cons r rs ih =>
    intro s hb hc hrs
    have hr : seenInterval (r.1, r.2) ≤ 1 := hrs r (List.mem_cons_self _ _)
    rcases s with ⟨st, t, c, b⟩
    simp only at hb hc
    subst hb hc
    simp only [ticks]
    rw [run_handler_seen, toggle_step tmod _ t st hr]
    exact ih _ rfl rfl (fun x hx => hrs x (List.mem_cons_of_mem _ hx))

lemma callOp_transitions (tmod pid : Nat) (op : Op) (s : Led) (out : Led × List Effect)
    (h : callOp tmod pid op s = some out) :
    out.1.transitions = s.transitions ∨
      ((∃ i v, op = Op.run i v) ∧ out.1.transitions = (s.transitions + 1) % tmod) := by
  cases op with
  | run i v =>
    simp only [callOp, Option.some.injEq] at h
    subst h
    rw [run_handler_transitions]
    split_ifs
    · exact Or.inr ⟨⟨i, v, rfl⟩, rfl⟩
    · exact Or.inl rfl
  | BLINKING_ON_OFF o c a =>
    simp only [callOp, Option.some.injEq] at h
    subst h
    left
    unfold BLINKING_ON_OFF_cmdHandler
    split_ifs <;> rfl
  | SET_LED_COLOR o c col =>
    simp only [callOp, Option.some.injEq] at h
    subst h
    left
    cases col with
    | valid k => cases k <;> rfl
    | invalid e => rfl
  | parameterUpdated i n v =>
    simp only [callOp, parameterUpdated] at h
    left
    split_ifs at h <;> simp only [Option.some.injEq] at h <;> subst h <;> rfl

lemma rendered_append (fx e : List Effect) :
    rendered (fx ++ e) = (e.foldl Pixel.apply (fx.foldl Pixel.apply Pixel.dark)).shown := by
  simp [rendered, List.foldl_append]

lemma callOp_count (tmod pid : Nat) (op : Op) (s : Led) (out : Led × List Effect)
    (h : callOp tmod pid op s = some out) :
    out.1.count = s.count ∨ out.1.count = 0 ∨
      ∃ i v, op = Op.run i v ∧ out.1.count = (s.count + 1) % U32_MOD ∧
        out.1.count < seenInterval (i, v) := by
  cases op with
  | run i v =>
    simp only [callOp, Option.some.injEq] at h
    subst h
    rw [run_handler_count]
    split_ifs with hb hle
    · exact Or.inr (Or.inl rfl)
    · exact Or.inr (Or.inr ⟨i, v, rfl, rfl, by omega⟩)
    · exact Or.inl rfl
  | BLINKING_ON_OFF o c a =>
    simp only [callOp, Option.some.injEq] at h
    subst h
    cases a <;> simp [BLINKING_ON_OFF_cmdHandler, OnArg.isValid]
  | SET_LED_COLOR o c col =>
    simp only [callOp, Option.some.injEq] at h
    subst h
    left
    cases col with
    | valid k => cases k <;> rfl
    | invalid e => rfl
  | parameterUpdated i n v =>
    simp only [callOp, parameterUpdated] at h
    left
    split_ifs at h <;> simp only [Option.some.injEq] at h <;> subst h <;> rfl

lemma seenInterval_le (i : Nat) (v : ParamValid) : seenInterval (i, v) ≤ i := by
  unfold seenInterval
  split_ifs <;> simp

lemma lastEnabledSeen_count (tmod pid : Nat) (ops : List Op) :
    ∀ (s : Led) (fx : List Effect) (b : Option Nat) (w : Led × List Effect),
      (b = none → s.count = 0) →
      (∀ J : Nat, b = some J → (1 ≤ J → s.count < J) ∧ (J = 0 → s.count = 0)) →
      runOps tmod pid ops (s, fx) = some w →
      (lastEnabledSeen tmod pid ops s b = none → w.1.count = 0) ∧
      (∀ J : Nat, lastEnabledSeen tmod pid ops s b = some J →
        (1 ≤ J → w.1.count < J) ∧ (J = 0 → w.1.count = 0)) := by
  induction ops with
  | nil =>
    intro s fx b w h1 h2 h
    simp only [runOps, Option.some.injEq] at h
    subst h
    exact ⟨h1, h2⟩
  | cons op ops ih =>
    intro s fx b w h1 h2 h
    simp only [runOps] at h
    cases hc : callOp tmod pid op s with
    | none => simp [hc] at h
    | some out =>
      simp only [hc] at h
      simp only [lastEnabledSeen, hc]
      refine ih out.1 (fx ++ out.2) _ w ?_ ?_ h
      · intro hb
        cases op with
        | run i v =>
          simp only [callOp, Option.some.injEq] at hc
          subst hc
          rw [run_handler_count]
          by_cases hbl : s.blinking = true
          · simp [hbl] at hb
          · simp only [hbl, if_false] at hb ⊢
            exact h1 hb
        | BLINKING_ON_OFF o c a =>
          simp only [callOp, Option.some.injEq] at hc
          subst hc
          cases a with
          | valid x => simp [BLINKING_ON_OFF_cmdHandler, OnArg.isValid]
          | invalid e =>
            simp only [OnArg.isValid, Bool.false_eq_true, if_false] at hb
            simpa [BLINKING_ON_OFF_cmdHandler, OnArg.isValid] using h1 hb
        | SET_LED_COLOR o c col =>
          simp only [callOp, Option.some.injEq] at hc
          subst hc
          have : (SET_LED_COLOR_cmdHandler o c col s).1 = s := by
            cases col with
            | valid k => cases k <;> rfl
            | invalid e => rfl
          rw [this]
          exact h1 hb
        | parameterUpdated i n v =>
          simp only [callOp, parameterUpdated] at hc
          split_ifs at hc <;> simp only [Option.some.injEq] at hc <;> subst hc <;> exact h1 hb
      · intro J hJ
        cases op with
        | run i v =>
          simp only [callOp, Option.some.injEq] at hc
          subst hc
          rw [run_handler_count]
          by_cases hbl : s.blinking = true
          · simp only [hbl, if_true, Option.some.injEq] at hJ ⊢
            subst hJ
            constructor
            · intro h1J
              split_ifs <;> omega
            · intro h0
              simp [h0]
          · simp only [hbl, if_false] at hJ ⊢
            exact h2 J hJ
        | BLINKING_ON_OFF o c a =>
          simp only [callOp, Option.some.injEq] at hc
          subst hc
          cases a with
          | valid x => simp [OnArg.isValid] at hJ
          | invalid e =>
            simp only [OnArg.isValid, Bool.false_eq_true, if_false] at hJ
            simpa [BLINKING_ON_OFF_cmdHandler, OnArg.isValid] using h2 J hJ
        | SET_LED_COLOR o c col =>
          simp only [callOp, Option.some.injEq] at hc
          subst hc
          have : (SET_LED_COLOR_cmdHandler o c col s).1 = s := by
            cases col with
            | valid k => cases k <;> rfl
            | invalid e => rfl
          rw [this]
          exact h2 J hJ
        | parameterUpdated i n v =>
          simp only [callOp, parameterUpdated] at hc
          split_ifs at hc <;> simp only [Option.some.injEq] at hc <;> subst hc <;> exact h2 J hJ

lemma run_handler_shown (tmod interval : Nat) (isValid : ParamValid) (s : Led) (p : Pixel) :
    ((run_handler tmod interval isValid s).2.foldl Pixel.apply p).shown =
      if (run_handler tmod interval isValid s).1.state = s.state then p.shown
      else if (run_handler tmod interval isValid s).1.state = On.ON then Color 150 0 0
      else Color 0 0 0 := by
  rcases s with ⟨st, t, c, b⟩
  cases b <;> cases st <;> simp [run_handler] <;> (try split_ifs) <;>
    simp_all [Pixel.apply, NUMPIXELS]

lemma paletteRgb_black (c : Colors) : paletteRgb c = ⟨0, 0, 0⟩ ↔ c = Colors.OFF := by
  cases c <;> simp [paletteRgb]

lemma shownPalette_rendered (tmod pid : Nat) (ops : List Op) :
    ∀ (s : Led) (fx : List Effect) (g : Option Colors) (w : Led × List Effect),
      rendered fx =
        Option.elim g (if s.state = On.ON then Color 150 0 0 else Color 0 0 0) paletteRgb →
      runOps tmod pid ops (s, fx) = some w →
      rendered w.2 =
        Option.elim (shownPalette tmod pid ops s g)
          (if w.1.state = On.ON then Color 150 0 0 else Color 0 0 0) paletteRgb := by
  induction ops with
  | nil =>
    intro s fx g w hP h
    simp only [runOps, Option.some.injEq] at h
    subst h
    exact hP
  | cons op ops ih =>
    intro s fx g w hP h
    simp only [runOps] at h
    cases hc : callOp tmod pid op s with
    | none => simp [hc] at h
    | some out =>
      simp only [hc] at h
      simp only [shownPalette, hc]
      refine ih out.1 (fx ++ out.2) _ w ?_ h
      rw [rendered_append]
      have hP' : (fx.foldl Pixel.apply Pixel.dark).shown =
          Option.elim g (if s.state = On.ON then Color 150 0 0 else Color 0 0 0)
            paletteRgb := hP
      cases op with
      | run i v =>
        simp only [callOp, Option.some.injEq] at hc
        subst hc
        rw [run_handler_shown]
        by_cases hst : (run_handler tmod i v s).1.state = s.state
        · simp only [hst, if_true]
          exact hP'
        · simp [hst]
      | BLINKING_ON_OFF o c a =>
        simp only [callOp, Option.some.injEq] at hc
        subst hc
        cases a <;> simp [BLINKING_ON_OFF_cmdHandler, OnArg.isValid, Pixel.apply, hP']
      | SET_LED_COLOR o c col =>
        simp only [callOp, Option.some.injEq] at hc
        subst hc
        cases col with
        | valid k =>
          cases k <;>
            simp [SET_LED_COLOR_cmdHandler, Pixel.apply, NUMPIXELS, paletteRgb, Color]
        | invalid e => simp [SET_LED_COLOR_cmdHandler, Pixel.apply, hP']
      | parameterUpdated i n v =>
        simp only [callOp, parameterUpdated] at hc
        split_ifs at hc <;> simp only [Option.some.injEq] at hc <;> subst hc <;>
          simp [Pixel.apply, hP']

/-! ## Ticks -/

/-- C1: for an interval `2 ≤ I` (a `U32` value), after `k ≥ 1` enabled ticks that all see
`I`, started from OFF with `count = 0`, and with `c = (k - 1) % I`: the LED is ON when
`c < I / 2` and OFF otherwise; `count` is `k % I`, hence below `I`; the transition
counter has advanced by `2 * ((k - 1) / I) + (1 if c < I / 2 else 2)` in the counter's
unsigned arithmetic, which is that exact amount whenever the sum stays within the
counter's range.  For `I = 4` and 8 ticks the state trace is ON,ON,OFF,OFF,ON,ON,OFF,OFF
and the transition counter, started at 0, reads 1,1,2,2,3,3,4,4. -/
theorem blink_cycle (tmod I t0 : Nat) (rs : List (Nat × ParamValid))
    (hI : 2 ≤ I) (hU : I < U32_MOD) (hk : 1 ≤ rs.length)
    (hrs : ∀ r ∈ rs, seenInterval r = I) :
    (ticks tmod rs (blinkStart t0)).state =
      (if (rs.length - 1) % I < I / 2 then On.ON else On.OFF) ∧
    (ticks tmod rs (blinkStart t0)).count = rs.length % I ∧
    (ticks tmod rs (blinkStart t0)).count < I ∧
    (ticks tmod rs (blinkStart t0)).transitions =
      (t0 + (2 * ((rs.length - 1) / I) + (if (rs.length - 1) % I < I / 2 then 1 else 2)))
        % tmod ∧
    (tmod = 0 ∨
        t0 + (2 * ((rs.length - 1) / I) + (if (rs.length - 1) % I < I / 2 then 1 else 2))
          < tmod →
      (ticks tmod rs (blinkStart t0)).transitions =
        t0 + (2 * ((rs.length - 1) / I) + (if (rs.length - 1) % I < I / 2 then 1 else 2))) ∧
    (tmod = 0 ∨ 4 < tmod →
      ∀ v : ParamValid, seenInterval (4, v) = 4 →
        (tickTrace tmod (List.replicate 8 (4, v)) (blinkStart 0)).map
            (fun o => (o.1.state, o.1.transitions)) =
          [(On.ON, 1), (On.ON, 1), (On.OFF, 2), (On.OFF, 2),
           (On.ON, 3), (On.ON, 3), (On.OFF, 4), (On.OFF, 4)]) := by
  have h := ticks_cycle tmod I t0 hI hU rs hrs hk
  have hlen : rs.length - 1 + 1 = rs.length := by omega
  unfold blinkStart
  rw [h]
  refine ⟨rfl, ?_, ?_, rfl, ?_, ?_⟩
  · simp [cycleState, hlen]
  · simp only [cycleState]
    exact Nat.mod_lt _ (by omega)
  · rintro (h0 | hlt)
    · simp [cycleState, h0]
    · simp only [cycleState]
      exact Nat.mod_eq_of_lt hlt
  · intro ht v hv
    have h1 : 1 % tmod = 1 := by rcases ht with h0 | h4; simp [h0]; exact Nat.mod_eq_of_lt (by omega)
    have h2 : 2 % tmod = 2 := by rcases ht with h0 | h4; simp [h0]; exact Nat.mod_eq_of_lt (by omega)
    have h3 : 3 % tmod = 3 := by rcases ht with h0 | h4; simp [h0]; exact Nat.mod_eq_of_lt (by omega)
    have h4 : 4 % tmod = 4 := by rcases ht with h0 | h4; simp [h0]; exact Nat.mod_eq_of_lt (by omega)
    cases v <;> simp [seenInterval] at hv <;>
      simp [tickTrace, run_handler, List.replicate, U32_MOD, Color, h1, h2, h3, h4]

theorem blink_cycle_witness :
    (ticks (2 ^ 64) (List.replicate 8 (4, ParamValid.VALID)) (blinkStart 0)).state = On.OFF ∧
    (ticks (2 ^ 64) (List.replicate 8 (4, ParamValid.VALID)) (blinkStart 0)).count = 0 ∧
    (ticks (2 ^ 64) (List.replicate 8 (4, ParamValid.VALID)) (blinkStart 0)).transitions = 4 := by
  have h := blink_cycle (2 ^ 64) 4 0 (List.replicate 8 (4, ParamValid.VALID))
    (by decide) (by norm_num [U32_MOD]) (by decide) (by decide)
  refine ⟨by simpa using h.1, by simpa using h.2.1, ?_⟩
  have h5 := h.2.2.2.2.1 (Or.inr (by norm_num))
  simpa using h5

/-- C2, refuted as stated: with interval 0 the second enabled tick finds `count = 0`,
the LED ON and `interval / 2 = 0`, so it switches the LED OFF and renders black. -/
theorem interval_zero_second_tick_turns_off :
    (ticks (2 ^ 64) [(0, ParamValid.VALID), (0, ParamValid.VALID)] (blinkStart 0)).state
      = On.OFF ∧
    (run_handler (2 ^ 64) 0 ParamValid.VALID
        (ticks (2 ^ 64) [(0, ParamValid.VALID)] (blinkStart 0))).2 =
      [Effect.tlmWrite_LedTransitions 2, Effect.pixels_setPixelColor 0 (Color 0 0 0),
       Effect.pixels_show, Effect.tlmWrite_BlinkingState (OnArg.valid On.OFF)] := by
  decide

/-- C2, amended: with blinking enabled and every tick seeing interval 0 (a stored 0 that
is not flagged INVALID or UNINIT, or any stored value flagged so), started from OFF with
`count = 0`, the tick that follows any number `n` of such ticks leaves `count = 0` and
toggles the LED: it switches ON and renders the on colour when `n` is even, switches OFF
and renders black when `n` is odd, and advances the transition counter by one (in the
counter's unsigned arithmetic).  So the LED is ON after the odd-numbered ticks and OFF
after the even-numbered ones. -/
theorem interval_zero_toggles (tmod t0 : Nat) (rs : List (Nat × ParamValid))
    (r : Nat × ParamValid) (hrs : ∀ x ∈ rs, seenInterval x = 0) (hr : seenInterval r = 0) :
    run_handler tmod r.1 r.2 (ticks tmod rs (blinkStart t0)) =
      ({ state := if rs.length % 2 = 0 then On.ON else On.OFF,
         transitions := (t0 + rs.length + 1) % tmod, count := 0, blinking := true },
        [Effect.tlmWrite_LedTransitions ((t0 + rs.length + 1) % tmod),
         (if rs.length % 2 = 0 then Effect.pixels_setPixelColor 0 (Color 150 0 0)
          else Effect.pixels_setPixelColor 0 (Color 0 0 0)),
         Effect.pixels_show,
         Effect.tlmWrite_BlinkingState
           (OnArg.valid (if rs.length % 2 = 0 then On.ON else On.OFF))]) ∧
    (∀ (stored : Nat) (v : ParamValid),
      seenInterval (stored, v) = 0 ↔
        (stored = 0 ∨ v = ParamValid.INVALID ∨ v = ParamValid.UNINIT)) := by
  refine ⟨toggle_next tmod t0 rs r hrs hr, fun stored v => ?_⟩
  cases v <;> simp [seenInterval]

theorem interval_zero_toggles_witness :
    run_handler (2 ^ 64) 9 ParamValid.UNINIT
        (ticks (2 ^ 64) [(0, ParamValid.VALID)] (blinkStart 0)) =
      ({ state := On.OFF, transitions := 2, count := 0, blinking := true },
        [Effect.tlmWrite_LedTransitions 2, Effect.pixels_setPixelColor 0 (Color 0 0 0),
         Effect.pixels_show, Effect.tlmWrite_BlinkingState (OnArg.valid On.OFF)]) :=
  (interval_zero_toggles (2 ^ 64) 0 [(0, ParamValid.VALID)] (9, ParamValid.UNINIT)
    (by decide) (by decide)).1

/-- C3, refuted as stated: with blinking disabled and the LED lit, one tick changes the
LED state from ON to OFF and leaves the transition counter at its value. -/
theorem disabled_flip_not_counted :
    (run_handler (2 ^ 64) 4 ParamValid.VALID
        { state := On.ON, transitions := 5, count := 0, blinking := false }).1.state
      = On.OFF ∧
    (run_handler (2 ^ 64) 4 ParamValid.VALID
        { state := On.ON, transitions := 5, count := 0, blinking := false }).1.transitions
      = 5 := by
  decide

/-- C3, amended: with blinking enabled, one `run_handler` advances the transition counter
by exactly 1 (in the counter's unsigned arithmetic) if the LED state after the tick
differs from the one before, and leaves it unchanged otherwise; with blinking disabled it
leaves the counter unchanged, also when it switches the LED from ON to OFF.  Hence over
any tick sequence the counter has advanced by the number of LED flips when blinking is
enabled, and not at all when it is disabled. -/
theorem transitions_count_enabled_flips (tmod interval : Nat) (isValid : ParamValid)
    (s : Led) :
    (s.blinking = true →
      (run_handler tmod interval isValid s).1.transitions =
        if (run_handler tmod interval isValid s).1.state ≠ s.state then
          (s.transitions + 1) % tmod
        else s.transitions) ∧
    (s.blinking = false →
      (run_handler tmod interval isValid s).1.transitions = s.transitions) ∧
    (∀ rs : List (Nat × ParamValid), (tmod = 0 ∨ s.transitions < tmod) →
      (ticks tmod rs s).transitions =
        if s.blinking = true then
          (s.transitions +
            countFlips s.state ((tickTrace tmod rs s).map (fun o => o.1.state))) % tmod
        else s.transitions) := by
  refine ⟨fun hb => ?_, fun hb => ?_, fun rs ht => ticks_transitions tmod rs s ht⟩
  · rw [run_handler_transitions]; simp [hb]
  · rw [run_handler_transitions]; simp [hb]

theorem transitions_count_enabled_flips_witness :
    (run_handler (2 ^ 64) 4 ParamValid.VALID
        { state := On.OFF, transitions := 5, count := 0, blinking := true }).1.transitions =
      (if (run_handler (2 ^ 64) 4 ParamValid.VALID
            { state := On.OFF, transitions := 5, count := 0, blinking := true }).1.state
          ≠ On.OFF then (5 + 1) % 2 ^ 64 else 5) ∧
    (run_handler (2 ^ 64) 4 ParamValid.VALID
        { state := On.ON, transitions := 5, count := 0, blinking := false }).1.transitions
      = 5 ∧
    (ticks (2 ^ 64) [(4, ParamValid.VALID), (4, ParamValid.VALID), (4, ParamValid.VALID)]
        { state := On.OFF, transitions := 5, count := 0, blinking := true }).transitions
      = 7 :=
  ⟨(transitions_count_enabled_flips (2 ^ 64) 4 ParamValid.VALID
      { state := On.OFF, transitions := 5, count := 0, blinking := true }).1 rfl,
   (transitions_count_enabled_flips (2 ^ 64) 4 ParamValid.VALID
      { state := On.ON, transitions := 5, count := 0, blinking := false }).2.1 rfl,
   (transitions_count_enabled_flips (2 ^ 64) 4 ParamValid.VALID
      { state := On.OFF, transitions := 5, count := 0, blinking := true }).2.2
      [(4, ParamValid.VALID), (4, ParamValid.VALID), (4, ParamValid.VALID)]
      (Or.inr (by norm_num))⟩

/-! ## Commands -/

/-- C4: with the LED lit, `BLINKING_ON_OFF_cmdHandler` with a valid OFF followed by one
`run_handler` makes that tick emit exactly: set pixel 0 to black, show, one telemetry
write of the state channel with value OFF; the LED state becomes OFF and the
transition counter keeps its value (the tick only changes `state`; the command had set
`count` to 0 and `blinking` to false). -/
theorem disable_while_lit (tmod opCode cmdSeq interval : Nat) (isValid : ParamValid) (s : Led)
    (hs : s.state = On.ON) :
    run_handler tmod interval isValid
        (BLINKING_ON_OFF_cmdHandler opCode cmdSeq (OnArg.valid On.OFF) s).1 =
      ({ state := On.OFF, transitions := s.transitions, count := 0, blinking := false },
        [Effect.pixels_setPixelColor 0 (Color 0 0 0), Effect.pixels_show,
         Effect.tlmWrite_BlinkingState (OnArg.valid On.OFF)]) ∧
    Color 0 0 0 = ⟨0, 0, 0⟩ := by
  simp [run_handler, BLINKING_ON_OFF_cmdHandler, OnArg.isValid, hs, Color]

theorem disable_while_lit_witness :
    run_handler (2 ^ 64) 4 ParamValid.VALID
        (BLINKING_ON_OFF_cmdHandler 7 3 (OnArg.valid On.OFF)
          { state := On.ON, transitions := 5, count := 1, blinking := true }).1 =
      ({ state := On.OFF, transitions := 5, count := 0, blinking := false },
        [Effect.pixels_setPixelColor 0 (Color 0 0 0), Effect.pixels_show,
         Effect.tlmWrite_BlinkingState (OnArg.valid On.OFF)]) ∧
    Color 0 0 0 = ⟨0, 0, 0⟩ :=
  disable_while_lit (2 ^ 64) 7 3 4 ParamValid.VALID
    { state := On.ON, transitions := 5, count := 1, blinking := true } rfl

/-- C5: while blinking is disabled, one `run_handler` leaves the LED state OFF, a second
one (with any other parameter reading) returns the same component state and emits
nothing, and so does every further tick: after any number of further ticks the state is
still that of the first tick and each of them emitted no effect. -/
theorem disabled_ticks_idempotent (tmod i1 i2 : Nat) (v1 v2 : ParamValid) (s : Led)
    (hb : s.blinking = false) :
    (run_handler tmod i1 v1 s).1.state = On.OFF ∧
    run_handler tmod i2 v2 (run_handler tmod i1 v1 s).1 = ((run_handler tmod i1 v1 s).1, []) ∧
    ∀ rs : List (Nat × ParamValid),
      ticks tmod rs (run_handler tmod i1 v1 s).1 = (run_handler tmod i1 v1 s).1 ∧
      ∀ o ∈ tickTrace tmod rs (run_handler tmod i1 v1 s).1,
        o = ((run_handler tmod i1 v1 s).1, []) := by
  have hb1 : (run_handler tmod i1 v1 s).1.blinking = false := by
    rw [run_handler_disabled tmod i1 v1 s hb]; split <;> simp [hb]
  have hs1 : (run_handler tmod i1 v1 s).1.state = On.OFF := by
    rw [run_handler_disabled tmod i1 v1 s hb]
    split
    · rfl
    · cases h : s.state <;> simp_all
  exact ⟨hs1, run_handler_disabled_off _ _ _ _ hb1 hs1,
    fun rs => ⟨ticks_disabled_off _ rs _ hb1 hs1, tickTrace_disabled_off _ rs _ hb1 hs1⟩⟩

theorem disabled_ticks_idempotent_witness :
    (run_handler (2 ^ 64) 4 ParamValid.VALID
        { state := On.ON, transitions := 5, count := 1, blinking := false }).1.state = On.OFF ∧
    run_handler (2 ^ 64) 9 ParamValid.UNINIT
        (run_handler (2 ^ 64) 4 ParamValid.VALID
          { state := On.ON, transitions := 5, count := 1, blinking := false }).1 =
      ((run_handler (2 ^ 64) 4 ParamValid.VALID
          { state := On.ON, transitions := 5, count := 1, blinking := false }).1, []) :=
  have h := disabled_ticks_idempotent (2 ^ 64) 4 9 ParamValid.VALID ParamValid.UNINIT
    { state := On.ON, transitions := 5, count := 1, blinking := false } rfl
  ⟨h.1, h.2.1⟩

/-- C6: for a valid argument, `BLINKING_ON_OFF_cmdHandler` sets `count` to 0 and
`blinking` to (on_off == ON), keeps `state` and `transitions`, and emits exactly the
state-set event, the telemetry write carrying on_off and the response OK, with no pixel
call. -/
theorem set_blinking_valid (opCode cmdSeq : Nat) (on_off : OnArg) (s : Led)
    (hv : on_off.isValid = true) :
    BLINKING_ON_OFF_cmdHandler opCode cmdSeq on_off s =
      ({ state := s.state, transitions := s.transitions, count := 0,
         blinking := decide (on_off = OnArg.valid On.ON) },
        [Effect.log_ACTIVITY_HI_SetBlinkingState on_off,
         Effect.tlmWrite_BlinkingState on_off,
         Effect.cmdResponse_out opCode cmdSeq CmdResponse.OK]) := by
  cases on_off with
  | valid v => cases v <;> simp [BLINKING_ON_OFF_cmdHandler, OnArg.isValid]
  | invalid e => simp [OnArg.isValid] at hv

theorem set_blinking_valid_witness :
    BLINKING_ON_OFF_cmdHandler 7 3 (OnArg.valid On.ON)
        { state := On.OFF, transitions := 5, count := 2, blinking := true } =
      ({ state := On.OFF, transitions := 5, count := 0,
         blinking := decide (OnArg.valid On.ON = OnArg.valid On.ON) },
        [Effect.log_ACTIVITY_HI_SetBlinkingState (OnArg.valid On.ON),
         Effect.tlmWrite_BlinkingState (OnArg.valid On.ON),
         Effect.cmdResponse_out 7 3 CmdResponse.OK]) :=
  set_blinking_valid 7 3 (OnArg.valid On.ON)
    { state := On.OFF, transitions := 5, count := 2, blinking := true } rfl

/-- C7: for an argument that is not a valid encoding, `BLINKING_ON_OFF_cmdHandler`
returns the component state unchanged and emits exactly one invalid-blink-argument
warning carrying the argument followed by the response VALIDATION_ERROR (no telemetry,
no pixel call); and for every argument the response is VALIDATION_ERROR exactly when
the argument is not valid. -/
theorem set_blinking_invalid (opCode cmdSeq : Nat) (on_off : OnArg) (s : Led) :
    (on_off.isValid = false →
      BLINKING_ON_OFF_cmdHandler opCode cmdSeq on_off s =
        (s, [Effect.log_WARNING_LO_InvalidBlinkArgument on_off,
             Effect.cmdResponse_out opCode cmdSeq CmdResponse.VALIDATION_ERROR])) ∧
    (Effect.cmdResponse_out opCode cmdSeq CmdResponse.VALIDATION_ERROR ∈
        (BLINKING_ON_OFF_cmdHandler opCode cmdSeq on_off s).2 ↔ on_off.isValid = false) := by
  cases on_off <;> simp [BLINKING_ON_OFF_cmdHandler, OnArg.isValid]

theorem set_blinking_invalid_witness :
    BLINKING_ON_OFF_cmdHandler 7 3 (OnArg.invalid 2)
        { state := On.ON, transitions := 5, count := 2, blinking := true } =
      ({ state := On.ON, transitions := 5, count := 2, blinking := true },
        [Effect.log_WARNING_LO_InvalidBlinkArgument (OnArg.invalid 2),
         Effect.cmdResponse_out 7 3 CmdResponse.VALIDATION_ERROR]) :=
  (set_blinking_invalid 7 3 (OnArg.invalid 2)
    { state := On.ON, transitions := 5, count := 2, blinking := true }).1 rfl

/-- C8: for a colour value outside the palette, `SET_LED_COLOR_cmdHandler` emits exactly
one invalid-colour-argument warning carrying the value followed by one response
VALIDATION_ERROR, hence no pixel call and no telemetry; and for every colour value the
response is VALIDATION_ERROR exactly when the value is outside the palette. -/
theorem set_color_invalid (opCode cmdSeq : Nat) (s : Led) :
    (∀ e : Int,
      SET_LED_COLOR_cmdHandler opCode cmdSeq (ColorsArg.invalid e) s =
        (s, [Effect.log_WARNING_LO_InvalidColorArgument (ColorsArg.invalid e),
             Effect.cmdResponse_out opCode cmdSeq CmdResponse.VALIDATION_ERROR])) ∧
    ∀ color : ColorsArg,
      (Effect.cmdResponse_out opCode cmdSeq CmdResponse.VALIDATION_ERROR ∈
          (SET_LED_COLOR_cmdHandler opCode cmdSeq color s).2 ↔
        ∃ e : Int, color = ColorsArg.invalid e) := by
  refine ⟨fun e => rfl, fun color => ?_⟩
  cases color with
  | valid c => cases c <;> simp [SET_LED_COLOR_cmdHandler]
  | invalid e => simp [SET_LED_COLOR_cmdHandler]

/-- C9: for every palette member, `SET_LED_COLOR_cmdHandler` emits exactly: set pixel 0
to the palette triple of the colour, show, response OK; in particular OFF renders
black (0,0,0) and answers OK. -/
theorem set_color_valid (opCode cmdSeq : Nat) (c : Colors) (s : Led) :
    (SET_LED_COLOR_cmdHandler opCode cmdSeq (ColorsArg.valid c) s).2 =
      [Effect.pixels_setPixelColor 0 (paletteRgb c), Effect.pixels_show,
       Effect.cmdResponse_out opCode cmdSeq CmdResponse.OK] ∧
    (SET_LED_COLOR_cmdHandler opCode cmdSeq (ColorsArg.valid Colors.OFF) s).2 =
      [Effect.pixels_setPixelColor 0 ⟨0, 0, 0⟩, Effect.pixels_show,
       Effect.cmdResponse_out opCode cmdSeq CmdResponse.OK] := by
  constructor
  · cases c <;> rfl
  · rfl

/-- C10: `SET_LED_COLOR_cmdHandler` returns the component state (`state`, `count`,
`blinking`, `transitions`) unchanged for every colour value, so a following
`run_handler` yields the same state and effects as without the colour command. -/
theorem set_color_frame (opCode cmdSeq : Nat) (color : ColorsArg) (s : Led) :
    (SET_LED_COLOR_cmdHandler opCode cmdSeq color s).1 = s ∧
    ∀ (tmod interval : Nat) (isValid : ParamValid),
      run_handler tmod interval isValid (SET_LED_COLOR_cmdHandler opCode cmdSeq color s).1 =
        run_handler tmod interval isValid s := by
  have h : (SET_LED_COLOR_cmdHandler opCode cmdSeq color s).1 = s := by
    cases color with
    | valid c => cases c <;> rfl
    | invalid e => rfl
  exact ⟨h, fun _ _ _ => by rw [h]⟩

/-! ## Single-step behaviour of a tick and the parameter notification -/

/-- C14: a tick whose parameter read reports INVALID or UNINIT gives the same state and
the same effects as a tick that reads interval 0 (under any flag), whatever the stored
value `v`: with blinking enabled the LED switches OFF at `count == 0` and `count`
becomes 0.  A tick whose read reports VALID or DEFAULT works with `v` itself: with
blinking enabled the LED switches OFF at `count == v / 2` and `count` becomes 0 if
`count + 1 >= v` (the sum in 32-bit arithmetic) and `count + 1` otherwise; the flag makes
no further difference. -/
theorem validity_substitution (tmod v : Nat) (isValid : ParamValid) (s : Led) :
    (isValid = ParamValid.INVALID ∨ isValid = ParamValid.UNINIT →
      seenInterval (v, isValid) = 0 ∧
      (∀ f : ParamValid, run_handler tmod v isValid s = run_handler tmod 0 f s) ∧
      (s.blinking = true →
        (run_handler tmod v isValid s).1.state =
          (if s.count = 0 ∧ s.state = On.OFF then On.ON
           else if s.count = 0 ∧ s.state = On.ON then On.OFF
           else s.state) ∧
        (run_handler tmod v isValid s).1.count = 0)) ∧
    (isValid = ParamValid.VALID ∨ isValid = ParamValid.DEFAULT →
      seenInterval (v, isValid) = v ∧
      run_handler tmod v isValid s = run_handler tmod v ParamValid.VALID s ∧
      (s.blinking = true →
        (run_handler tmod v isValid s).1.state =
          (if s.count = 0 ∧ s.state = On.OFF then On.ON
           else if s.count = v / 2 ∧ s.state = On.ON then On.OFF
           else s.state) ∧
        (run_handler tmod v isValid s).1.count =
          (if v ≤ (s.count + 1) % U32_MOD then 0 else (s.count + 1) % U32_MOD))) := by
  constructor
  · intro h
    have h0 : seenInterval (v, isValid) = 0 := by
      rcases h with h | h <;> simp [seenInterval, h]
    refine ⟨h0, fun f => ?_, fun hb => ⟨?_, ?_⟩⟩
    · have hf : seenInterval (0, f) = 0 := by simp [seenInterval]
      rw [run_handler_seen tmod v isValid, run_handler_seen tmod 0 f, h0, hf]
    · rw [run_handler_state, h0]; simp [hb]
    · rw [run_handler_count, h0]; simp [hb]
  · intro h
    have hv : seenInterval (v, isValid) = v := by
      rcases h with h | h <;> simp [seenInterval, h]
    refine ⟨hv, by rw [run_handler_seen tmod v isValid, hv], fun hb => ⟨?_, ?_⟩⟩
    · rw [run_handler_state, hv]; simp [hb]
    · rw [run_handler_count, hv]; simp [hb]

theorem validity_substitution_witness :
    run_handler (2 ^ 64) 9 ParamValid.UNINIT
        { state := On.ON, transitions := 5, count := 0, blinking := true } =
      run_handler (2 ^ 64) 0 ParamValid.VALID
        { state := On.ON, transitions := 5, count := 0, blinking := true } ∧
    (run_handler (2 ^ 64) 9 ParamValid.DEFAULT
        { state := On.ON, transitions := 5, count := 4, blinking := true }).1.state =
      (if (4 : Nat) = 0 ∧ On.ON = On.OFF then On.ON
       else if 4 = 9 / 2 ∧ On.ON = On.ON then On.OFF else On.ON) ∧
    (run_handler (2 ^ 64) 9 ParamValid.DEFAULT
        { state := On.ON, transitions := 5, count := 4, blinking := true }).1.count =
      (if 9 ≤ (4 + 1) % U32_MOD then 0 else (4 + 1) % U32_MOD) :=
  ⟨((validity_substitution (2 ^ 64) 9 ParamValid.UNINIT
      { state := On.ON, transitions := 5, count := 0, blinking := true }).1
      (Or.inr rfl)).2.1 ParamValid.VALID,
   ((validity_substitution (2 ^ 64) 9 ParamValid.DEFAULT
      { state := On.ON, transitions := 5, count := 4, blinking := true }).2
      (Or.inr rfl)).2.2 rfl⟩

/-- C15: when the parameter read reports VALID, `parameterUpdated` returns (the
assertion does not fire) with the component state unchanged and emits only the
blink-interval-set event carrying the read interval, once, if the id is that of
BLINK_INTERVAL, and nothing otherwise; the assertion fires exactly when the reported
validity is not VALID. -/
theorem parameter_updated_valid (PARAMID_BLINK_INTERVAL id interval : Nat)
    (isValid : ParamValid) (s : Led) :
    (isValid = ParamValid.VALID →
      parameterUpdated PARAMID_BLINK_INTERVAL id interval isValid s =
        some (s, if id = PARAMID_BLINK_INTERVAL then
                   [Effect.log_ACTIVITY_HI_BlinkIntervalSet interval]
                 else [])) ∧
    (parameterUpdated PARAMID_BLINK_INTERVAL id interval isValid s = none ↔
      isValid ≠ ParamValid.VALID) := by
  constructor
  · intro h
    by_cases hid : PARAMID_BLINK_INTERVAL = id
    · simp [parameterUpdated, h, hid]
    · have hid' : ¬ id = PARAMID_BLINK_INTERVAL := fun e => hid e.symm
      simp [parameterUpdated, h, hid, hid']
  · by_cases h : isValid = ParamValid.VALID
    · simp only [parameterUpdated, h]
      split_ifs <;> simp
    · simp [parameterUpdated, h]

theorem parameter_updated_valid_witness :
    parameterUpdated 3 3 10 ParamValid.VALID
        { state := On.ON, transitions := 5, count := 2, blinking := true } =
      some ({ state := On.ON, transitions := 5, count := 2, blinking := true },
        [Effect.log_ACTIVITY_HI_BlinkIntervalSet 10]) :=
  (parameter_updated_valid 3 3 10 ParamValid.VALID
    { state := On.ON, transitions := 5, count := 2, blinking := true }).1 rfl

/-- C16: for a tick with blinking enabled that sees interval `I` (both `count` and the
stored value being `U32` values): the new LED state is ON if `count == 0` and the LED is
OFF, otherwise OFF if `count == I / 2` and the LED is ON, otherwise unchanged; the new
`count` is 0 if `count + 1 >= I` and `count + 1` otherwise, whether or not the LED
changed; `blinking` stays true.  With blinking disabled the tick leaves `count`
unchanged. -/
theorem enabled_tick_reference (tmod interval : Nat) (isValid : ParamValid) (s : Led)
    (hc : s.count < U32_MOD) (hi : interval < U32_MOD) :
    (s.blinking = true →
      (run_handler tmod interval isValid s).1.state =
        (if s.count = 0 ∧ s.state = On.OFF then On.ON
         else if s.count = seenInterval (interval, isValid) / 2 ∧ s.state = On.ON then On.OFF
         else s.state) ∧
      (run_handler tmod interval isValid s).1.count =
        (if s.count + 1 ≥ seenInterval (interval, isValid) then 0 else s.count + 1) ∧
      (run_handler tmod interval isValid s).1.blinking = true) ∧
    (s.blinking = false → (run_handler tmod interval isValid s).1.count = s.count) := by
  have hI : seenInterval (interval, isValid) < U32_MOD := by
    unfold seenInterval
    split_ifs
    · simp [U32_MOD]
    · exact hi
  constructor
  · intro hb
    refine ⟨by rw [run_handler_state]; simp [hb], ?_, by rw [run_handler_blinking]; exact hb⟩
    rw [run_handler_count]
    simp only [hb, if_true]
    by_cases hw : s.count + 1 < U32_MOD
    · rw [Nat.mod_eq_of_lt hw]
    · have he : s.count + 1 = U32_MOD := by omega
      have h1 : seenInterval (interval, isValid) ≤ s.count + 1 := by omega
      simp only [he, Nat.mod_self] at h1 ⊢
      simp [h1]
  · intro hb
    rw [run_handler_count]
    simp [hb]

theorem enabled_tick_reference_witness :
    (run_handler (2 ^ 64) 4 ParamValid.VALID
        { state := On.ON, transitions := 5, count := 2, blinking := true }).1.state =
      (if (2 : Nat) = 0 ∧ On.ON = On.OFF then On.ON
       else if 2 = seenInterval (4, ParamValid.VALID) / 2 ∧ On.ON = On.ON then On.OFF
       else On.ON) ∧
    (run_handler (2 ^ 64) 4 ParamValid.VALID
        { state := On.ON, transitions := 5, count := 2, blinking := true }).1.count =
      (if 2 + 1 ≥ seenInterval (4, ParamValid.VALID) then 0 else 2 + 1) ∧
    (run_handler (2 ^ 64) 4 ParamValid.VALID
        { state := On.ON, transitions := 5, count := 2, blinking := true }).1.blinking = true :=
  (enabled_tick_reference (2 ^ 64) 4 ParamValid.VALID
    { state := On.ON, transitions := 5, count := 2, blinking := true }
    (by norm_num [U32_MOD]) (by norm_num [U32_MOD])).1 rfl

/-- C17: for a tick with blinking enabled, if the LED state changes the effects are
exactly: telemetry LedTransitions with the incremented counter (`transitions + 1` in the
counter's unsigned arithmetic, which is `transitions + 1` itself below the counter's
maximum), `setPixelColor(0, (150,0,0))` if the new state is ON or
`setPixelColor(0, (0,0,0))` if it is OFF, `show()`, telemetry of the new state; if the LED
state does not change the tick emits nothing. -/
theorem transition_effects (tmod interval : Nat) (isValid : ParamValid) (s : Led)
    (hb : s.blinking = true) :
    ((run_handler tmod interval isValid s).1.state ≠ s.state →
      (run_handler tmod interval isValid s).2 =
        [Effect.tlmWrite_LedTransitions ((s.transitions + 1) % tmod),
         Effect.pixels_setPixelColor 0
           (if (run_handler tmod interval isValid s).1.state = On.ON then ⟨150, 0, 0⟩
            else ⟨0, 0, 0⟩),
         Effect.pixels_show,
         Effect.tlmWrite_BlinkingState
           (OnArg.valid (run_handler tmod interval isValid s).1.state)] ∧
      (tmod = 0 ∨ s.transitions + 1 < tmod →
        (run_handler tmod interval isValid s).2.head? =
          some (Effect.tlmWrite_LedTransitions (s.transitions + 1)))) ∧
    ((run_handler tmod interval isValid s).1.state = s.state →
      (run_handler tmod interval isValid s).2 = []) := by
  constructor
  · intro hne
    have h := run_handler_effects tmod interval isValid s
    simp only [hne, hb, if_false, if_true, Color] at h
    refine ⟨h, fun ht => ?_⟩
    have hm : (s.transitions + 1) % tmod = s.transitions + 1 := by
      rcases ht with h0 | hlt
      · simp [h0]
      · exact Nat.mod_eq_of_lt hlt
    rw [h, hm]
    rfl
  · intro he
    have h := run_handler_effects tmod interval isValid s
    simpa [he] using h

theorem transition_effects_witness :
    (run_handler (2 ^ 64) 4 ParamValid.VALID
        { state := On.ON, transitions := 5, count := 2, blinking := true }).2 =
      [Effect.tlmWrite_LedTransitions ((5 + 1) % 2 ^ 64),
       Effect.pixels_setPixelColor 0
         (if (run_handler (2 ^ 64) 4 ParamValid.VALID
               { state := On.ON, transitions := 5, count := 2, blinking := true }).1.state
             = On.ON then ⟨150, 0, 0⟩ else ⟨0, 0, 0⟩),
       Effect.pixels_show,
       Effect.tlmWrite_BlinkingState
         (OnArg.valid (run_handler (2 ^ 64) 4 ParamValid.VALID
           { state := On.ON, transitions := 5, count := 2, blinking := true }).1.state)] :=
  ((transition_effects (2 ^ 64) 4 ParamValid.VALID
    { state := On.ON, transitions := 5, count := 2, blinking := true } rfl).1
    (by decide)).1

/-- C18: for every state with blinking enabled, whatever its `count`, and every tick that
sees an interval `I ≥ 1`, `count` after the tick is strictly less than `I`. -/
theorem enabled_tick_restores_range (tmod interval : Nat) (isValid : ParamValid) (s : Led)
    (hb : s.blinking = true) (hI : 1 ≤ seenInterval (interval, isValid)) :
    (run_handler tmod interval isValid s).1.count < seenInterval (interval, isValid) := by
  rw [run_handler_count]
  simp only [hb, if_true]
  split_ifs with h
  · omega
  · omega

theorem enabled_tick_restores_range_witness :
    (run_handler (2 ^ 64) 3 ParamValid.VALID
        { state := On.OFF, transitions := 5, count := 7, blinking := true }).1.count <
      seenInterval (3, ParamValid.VALID) :=
  enabled_tick_restores_range (2 ^ 64) 3 ParamValid.VALID
    { state := On.OFF, transitions := 5, count := 7, blinking := true } rfl (by decide)

/-- C19: with blinking enabled, `count = 0` and every tick seeing an interval of 0 or 1,
the tick that follows any number of such ticks finds `count = 0` again and flips the LED
(OFF to ON, ON to OFF), advances the transition counter by exactly 1 (in the counter's
unsigned arithmetic), renders once (one `setPixelColor`, one `show`) and leaves
`count` at 0. -/
theorem short_interval_toggles (tmod : Nat) (s : Led) (rs : List (Nat × ParamValid))
    (r : Nat × ParamValid) (hb : s.blinking = true) (hc : s.count = 0)
    (hrs : ∀ x ∈ rs, seenInterval x ≤ 1) (hr : seenInterval r ≤ 1) :
    (ticks tmod rs s).blinking = true ∧ (ticks tmod rs s).count = 0 ∧
    run_handler tmod r.1 r.2 (ticks tmod rs s) =
      ({ state := if (ticks tmod rs s).state = On.OFF then On.ON else On.OFF,
         transitions := ((ticks tmod rs s).transitions + 1) % tmod,
         count := 0, blinking := true },
        [Effect.tlmWrite_LedTransitions (((ticks tmod rs s).transitions + 1) % tmod),
         (if (ticks tmod rs s).state = On.OFF then Effect.pixels_setPixelColor 0 (Color 150 0 0)
          else Effect.pixels_setPixelColor 0 (Color 0 0 0)),
         Effect.pixels_show,
         Effect.tlmWrite_BlinkingState
           (OnArg.valid (if (ticks tmod rs s).state = On.OFF then On.ON else On.OFF))]) := by
  obtain ⟨h1, h2⟩ := ticks_short tmod rs s hb hc hrs
  refine ⟨h1, h2, ?_⟩
  have hr' : seenInterval (r.1, r.2) ≤ 1 := hr
  generalize ticks tmod rs s = b at h1 h2 ⊢
  rcases b with ⟨st, t, c, bl⟩
  simp only at h1 h2
  subst h1 h2
  rw [run_handler_seen, toggle_step tmod _ t st hr']

theorem short_interval_toggles_witness :
    run_handler (2 ^ 64) 1 ParamValid.VALID
        (ticks (2 ^ 64) [(1, ParamValid.VALID), (0, ParamValid.DEFAULT)]
          { state := On.ON, transitions := 5, count := 0, blinking := true }) =
      ({ state := On.OFF, transitions := 8, count := 0, blinking := true },
        [Effect.tlmWrite_LedTransitions 8, Effect.pixels_setPixelColor 0 (Color 0 0 0),
         Effect.pixels_show, Effect.tlmWrite_BlinkingState (OnArg.valid On.OFF)]) :=
  (short_interval_toggles (2 ^ 64)
    { state := On.ON, transitions := 5, count := 0, blinking := true }
    [(1, ParamValid.VALID), (0, ParamValid.DEFAULT)] (1, ParamValid.VALID) rfl rfl
    (by decide) (by decide)).2.2

/-! ## Invariants over call sequences -/

/-- C13, refuted as stated: a transition counter at the maximum of its unsigned type
(shown for 64 and for 32 bits) wraps to 0 on the next LED flip, so the value after the
tick is smaller than the value before. -/
theorem transitions_wrap_at_maximum :
    (run_handler (2 ^ 64) 4 ParamValid.VALID
        { state := On.OFF, transitions := 2 ^ 64 - 1, count := 0, blinking := true }).1.transitions
      = 0 ∧
    (run_handler (2 ^ 32) 4 ParamValid.VALID
        { state := On.OFF, transitions := 2 ^ 32 - 1, count := 0, blinking := true }).1.transitions
      = 0 := by
  decide

/-- C13, amended: for every state whose transition counter is below the maximum of its
unsigned type and every call that returns (`run_handler` with any reading, the blinking
command, the colour command, `parameterUpdated`), the counter after the call is at least
the counter before it; and the blinking command, the colour command and
`parameterUpdated` leave it exactly unchanged in every state. -/
theorem transitions_monotone_below_maximum (tmod PARAMID_BLINK_INTERVAL : Nat) (op : Op)
    (s : Led) (out : Led × List Effect)
    (h : callOp tmod PARAMID_BLINK_INTERVAL op s = some out) :
    (tmod = 0 ∨ s.transitions + 1 < tmod → s.transitions ≤ out.1.transitions) ∧
    ((∀ (i : Nat) (v : ParamValid), op ≠ Op.run i v) → out.1.transitions = s.transitions) := by
  rcases callOp_transitions tmod PARAMID_BLINK_INTERVAL op s out h with h1 | ⟨⟨i, v, hop⟩, h1⟩
  · exact ⟨fun _ => by omega, fun _ => h1⟩
  · refine ⟨fun ht => ?_, fun hn => absurd hop (hn i v)⟩
    have hm : (s.transitions + 1) % tmod = s.transitions + 1 := by
      rcases ht with h0 | hlt
      · simp [h0]
      · exact Nat.mod_eq_of_lt hlt
    omega

theorem transitions_monotone_below_maximum_witness :
    (5 : Nat) ≤ (run_handler (2 ^ 64) 4 ParamValid.VALID
        { state := On.OFF, transitions := 5, count := 0, blinking := true }).1.transitions :=
  (transitions_monotone_below_maximum (2 ^ 64) 3 (Op.run 4 ParamValid.VALID)
    { state := On.OFF, transitions := 5, count := 0, blinking := true }
    (run_handler (2 ^ 64) 4 ParamValid.VALID
      { state := On.OFF, transitions := 5, count := 0, blinking := true }) rfl).1
    (Or.inr (by norm_num))

/-- C11, refuted as stated: right after construction the colour command with RED lights
the pixel while the LED state stays OFF; and with blinking enabled, after a tick has
switched the LED ON, the colour command with OFF renders black while the LED state
stays ON. -/
theorem set_color_breaks_rendered_state :
    (runOps (2 ^ 64) 3 [Op.SET_LED_COLOR 7 1 (ColorsArg.valid Colors.RED)] Led.Led).map
        (fun w => (w.1.state, rendered w.2)) = some (On.OFF, ⟨255, 0, 0⟩) ∧
    (runOps (2 ^ 64) 3
        [Op.BLINKING_ON_OFF 7 1 (OnArg.valid On.ON), Op.run 4 ParamValid.VALID,
         Op.SET_LED_COLOR 7 2 (ColorsArg.valid Colors.OFF)] Led.Led).map
        (fun w => (w.1.state, rendered w.2)) = some (On.ON, ⟨0, 0, 0⟩) := by
  decide

/-- C11, amended: in every state reached from construction by any sequence of ticks,
blinking commands, colour commands and `parameterUpdated` calls, after the handler
returns the pixel shows: the palette colour of the most recent colour command naming a
palette member, if no tick has changed the LED state since that command; and otherwise
black (0,0,0) when the LED state is OFF and (150,0,0) when it is ON.  Hence "LED state
OFF exactly when the pixel is black, ON exactly when it is lit" holds in exactly the
states where no such colour command has come since the last tick that changed the LED
state, or where the colour of the last one is OFF with the LED state OFF, or is not OFF
with the LED state ON. -/
theorem rendered_colour_of_state_or_palette (tmod PARAMID_BLINK_INTERVAL : Nat)
    (ops : List Op) (w : Led × List Effect)
    (h : runOps tmod PARAMID_BLINK_INTERVAL ops Led.Led = some w) :
    (shownPalette tmod PARAMID_BLINK_INTERVAL ops Led.Led.1 none = none →
      rendered w.2 = (if w.1.state = On.ON then ⟨150, 0, 0⟩ else ⟨0, 0, 0⟩)) ∧
    (∀ c : Colors, shownPalette tmod PARAMID_BLINK_INTERVAL ops Led.Led.1 none = some c →
      rendered w.2 = paletteRgb c) ∧
    (((w.1.state = On.OFF ↔ rendered w.2 = ⟨0, 0, 0⟩) ∧
        (w.1.state = On.ON ↔ rendered w.2 ≠ ⟨0, 0, 0⟩)) ↔
      (shownPalette tmod PARAMID_BLINK_INTERVAL ops Led.Led.1 none = none ∨
        ∃ c : Colors, shownPalette tmod PARAMID_BLINK_INTERVAL ops Led.Led.1 none = some c ∧
          (c = Colors.OFF ↔ w.1.state = On.OFF))) := by
  have key := shownPalette_rendered tmod PARAMID_BLINK_INTERVAL ops Led.Led.1 Led.Led.2 none w
    (by decide) h
  cases hg : shownPalette tmod PARAMID_BLINK_INTERVAL ops Led.Led.1 none with
  | none =>
    rw [hg] at key
    simp only [Option.elim, Color] at key
    cases hs : w.1.state <;> simp [hs] at key <;> simp [key, hs]
  | some c =>
    rw [hg] at key
    simp only [Option.elim] at key
    have hb := paletteRgb_black c
    refine ⟨fun hn => by simp at hn, fun c' hc' => ?_, ?_⟩
    · simp only [Option.some.injEq] at hc'
      subst hc'
      exact key
    · rw [key]
      cases hs : w.1.state <;> simp [hb]

theorem rendered_colour_of_state_or_palette_witness :
    runOps (2 ^ 64) 3
        [Op.SET_LED_COLOR 7 1 (ColorsArg.valid Colors.BLUE),
         Op.BLINKING_ON_OFF 7 2 (OnArg.valid On.ON), Op.run 4 ParamValid.VALID] Led.Led =
      some ({ state := On.ON, transitions := 1, count := 1, blinking := true },
        [Effect.pixels_begin,
         Effect.pixels_setPixelColor 0 (Color 0 0 255),
         Effect.pixels_show,
         Effect.cmdResponse_out 7 1 CmdResponse.OK,
         Effect.log_ACTIVITY_HI_SetBlinkingState (OnArg.valid On.ON),
         Effect.tlmWrite_BlinkingState (OnArg.valid On.ON),
         Effect.cmdResponse_out 7 2 CmdResponse.OK,
         Effect.tlmWrite_LedTransitions 1,
         Effect.pixels_setPixelColor 0 (Color 150 0 0),
         Effect.pixels_show,
         Effect.tlmWrite_BlinkingState (OnArg.valid On.ON)]) ∧
    rendered
        [Effect.pixels_begin,
         Effect.pixels_setPixelColor 0 (Color 0 0 255),
         Effect.pixels_show,
         Effect.cmdResponse_out 7 1 CmdResponse.OK,
         Effect.log_ACTIVITY_HI_SetBlinkingState (OnArg.valid On.ON),
         Effect.tlmWrite_BlinkingState (OnArg.valid On.ON),
         Effect.cmdResponse_out 7 2 CmdResponse.OK,
         Effect.tlmWrite_LedTransitions 1,
         Effect.pixels_setPixelColor 0 (Color 150 0 0),
         Effect.pixels_show,
         Effect.tlmWrite_BlinkingState (OnArg.valid On.ON)] =
      (if On.ON = On.ON then ⟨150, 0, 0⟩ else ⟨0, 0, 0⟩) :=
  ⟨by decide,
   (rendered_colour_of_state_or_palette (2 ^ 64) 3
      [Op.SET_LED_COLOR 7 1 (ColorsArg.valid Colors.BLUE),
       Op.BLINKING_ON_OFF 7 2 (OnArg.valid On.ON), Op.run 4 ParamValid.VALID]
      ({ state := On.ON, transitions := 1, count := 1, blinking := true },
        [Effect.pixels_begin,
         Effect.pixels_setPixelColor 0 (Color 0 0 255),
         Effect.pixels_show,
         Effect.cmdResponse_out 7 1 CmdResponse.OK,
         Effect.log_ACTIVITY_HI_SetBlinkingState (OnArg.valid On.ON),
         Effect.tlmWrite_BlinkingState (OnArg.valid On.ON),
         Effect.cmdResponse_out 7 2 CmdResponse.OK,
         Effect.tlmWrite_LedTransitions 1,
         Effect.pixels_setPixelColor 0 (Color 150 0 0),
         Effect.pixels_show,
         Effect.tlmWrite_BlinkingState (OnArg.valid On.ON)])
      (by decide)).1 (by decide)⟩

/-- C12, refuted as stated: with interval 0 an enabled tick leaves `count = 0`, which is
not below the interval; and after three enabled ticks at interval 10 the interval is set
to 2 (`parameterUpdated` returns) while `count` is 3. -/
theorem tick_count_not_below_interval :
    (runOps (2 ^ 64) 3
        [Op.BLINKING_ON_OFF 7 1 (OnArg.valid On.ON), Op.run 0 ParamValid.VALID] Led.Led).map
        (fun w => decide (w.1.count < seenInterval (0, ParamValid.VALID))) = some false ∧
    (runOps (2 ^ 64) 3
        [Op.BLINKING_ON_OFF 7 1 (OnArg.valid On.ON), Op.run 10 ParamValid.VALID,
         Op.run 10 ParamValid.VALID, Op.run 10 ParamValid.VALID,
         Op.parameterUpdated 3 2 ParamValid.VALID] Led.Led).map
        (fun w => (w.1.count, decide (w.1.count < 2))) = some (3, false) := by
  decide

/-- C12, amended: in every state reached from construction by any sequence of ticks,
blinking commands, colour commands and `parameterUpdated` calls, with the interval
changing freely between calls: `count` is 0 if no tick has run with blinking enabled
since construction or the last blinking command with a valid argument; otherwise, with
`J` the interval seen by the most recent such tick, `count < J` if `J ≥ 1` and
`count = 0` if `J = 0`.  So `count` lies in `[0, I)` for every `I ≥ 1` that is not
smaller than `J`, whatever disabled ticks or earlier ticks have seen. -/
theorem tick_count_below_last_enabled_interval (tmod PARAMID_BLINK_INTERVAL : Nat)
    (ops : List Op) (w : Led × List Effect)
    (h : runOps tmod PARAMID_BLINK_INTERVAL ops Led.Led = some w) :
    (lastEnabledSeen tmod PARAMID_BLINK_INTERVAL ops Led.Led.1 none = none →
      w.1.count = 0) ∧
    (∀ J : Nat, lastEnabledSeen tmod PARAMID_BLINK_INTERVAL ops Led.Led.1 none = some J →
      (1 ≤ J → w.1.count < J) ∧ (J = 0 → w.1.count = 0)) ∧
    (∀ I : Nat, 1 ≤ I →
      (∀ J : Nat, lastEnabledSeen tmod PARAMID_BLINK_INTERVAL ops Led.Led.1 none = some J →
        J ≤ I) →
      w.1.count < I) := by
  obtain ⟨h1, h2⟩ := lastEnabledSeen_count tmod PARAMID_BLINK_INTERVAL ops Led.Led.1
    Led.Led.2 none w (fun _ => rfl) (fun J hJ => by simp at hJ) h
  refine ⟨h1, h2, fun I hI hle => ?_⟩
  cases hg : lastEnabledSeen tmod PARAMID_BLINK_INTERVAL ops Led.Led.1 none with
  | none => have := h1 hg; omega
  | some J =>
    have hJI := hle J hg
    obtain ⟨ha, hb⟩ := h2 J hg
    by_cases h0 : J = 0
    · have := hb h0; omega
    · have := ha (by omega); omega

theorem tick_count_below_last_enabled_interval_witness :
    runOps (2 ^ 64) 3
        [Op.run 1000 ParamValid.VALID, Op.BLINKING_ON_OFF 7 1 (OnArg.valid On.ON),
         Op.run 3 ParamValid.VALID, Op.run 3 ParamValid.VALID] Led.Led =
      some ({ state := On.OFF, transitions := 2, count := 2, blinking := true },
        [Effect.pixels_begin,
         Effect.log_ACTIVITY_HI_SetBlinkingState (OnArg.valid On.ON),
         Effect.tlmWrite_BlinkingState (OnArg.valid On.ON),
         Effect.cmdResponse_out 7 1 CmdResponse.OK,
         Effect.tlmWrite_LedTransitions 1,
         Effect.pixels_setPixelColor 0 (Color 150 0 0),
         Effect.pixels_show,
         Effect.tlmWrite_BlinkingState (OnArg.valid On.ON),
         Effect.tlmWrite_LedTransitions 2,
         Effect.pixels_setPixelColor 0 (Color 0 0 0),
         Effect.pixels_show,
         Effect.tlmWrite_BlinkingState (OnArg.valid On.OFF)]) ∧
    lastEnabledSeen (2 ^ 64) 3
        [Op.run 1000 ParamValid.VALID, Op.BLINKING_ON_OFF 7 1 (OnArg.valid On.ON),
         Op.run 3 ParamValid.VALID, Op.run 3 ParamValid.VALID] Led.Led.1 none = some 3 ∧
    (2 : Nat) < 3 :=
  ⟨by decide, by decide,
   ((tick_count_below_last_enabled_interval (2 ^ 64) 3
      [Op.run 1000 ParamValid.VALID, Op.BLINKING_ON_OFF 7 1 (OnArg.valid On.ON),
       Op.run 3 ParamValid.VALID, Op.run 3 ParamValid.VALID]
      ({ state := On.OFF, transitions := 2, count := 2, blinking := true },
        [Effect.pixels_begin,
         Effect.log_ACTIVITY_HI_SetBlinkingState (OnArg.valid On.ON),
         Effect.tlmWrite_BlinkingState (OnArg.valid On.ON),
         Effect.cmdResponse_out 7 1 CmdResponse.OK,
         Effect.tlmWrite_LedTransitions 1,
         Effect.pixels_setPixelColor 0 (Color 150 0 0),
         Effect.pixels_show,
         Effect.tlmWrite_BlinkingState (OnArg.valid On.ON),
         Effect.tlmWrite_LedTransitions 2,
         Effect.pixels_setPixelColor 0 (Color 0 0 0),
         Effect.pixels_show,
         Effect.tlmWrite_BlinkingState (OnArg.valid On.OFF)])
      (by decide)).2.1 3 (by decide)).1 (by decide)⟩

/-- C20: in every state reached from construction by any sequence of calls whose
parameter readings are `U32` values, `count` is at most `2 ^ 32 - 2`, so `count + 1`
computed in unsigned 32-bit arithmetic does not wrap and equals `count + 1`. -/
theorem tick_count_no_overflow (tmod PARAMID_BLINK_INTERVAL : Nat) (ops : List Op)
    (w : Led × List Effect) (hops : ∀ op ∈ ops, op.readsU32 = true)
    (h : runOps tmod PARAMID_BLINK_INTERVAL ops Led.Led = some w) :
    w.1.count ≤ 2 ^ 32 - 2 ∧ (w.1.count + 1) % U32_MOD = w.1.count + 1 := by
  have key : w.1.count + 2 ≤ U32_MOD := by
    refine runOps_invariant tmod PARAMID_BLINK_INTERVAL (fun x => x.1.count + 2 ≤ U32_MOD)
      (fun op => op.readsU32 = true) ?_ ops Led.Led hops (by simp [Led.Led, U32_MOD]) w h
    intro op s fx out hg hP hc
    rcases callOp_count tmod PARAMID_BLINK_INTERVAL op s out hc with h1 | h1 | ⟨i, v, hop, -, h3⟩
    · simpa [h1] using hP
    · simp [h1, U32_MOD]
    · subst hop
      have h4 : i < U32_MOD := by simpa [Op.readsU32] using hg
      have h5 := seenInterval_le i v
      simp only
      omega
  have hU : U32_MOD = 2 ^ 32 := rfl
  exact ⟨by omega, Nat.mod_eq_of_lt (by omega)⟩

theorem tick_count_no_overflow_witness :
    runOps (2 ^ 64) 3
        [Op.BLINKING_ON_OFF 7 1 (OnArg.valid On.ON), Op.run (2 ^ 32 - 1) ParamValid.VALID]
        Led.Led =
      some ({ state := On.ON, transitions := 1, count := 1, blinking := true },
      [Effect.pixels_begin,
       Effect.log_ACTIVITY_HI_SetBlinkingState (OnArg.valid On.ON),
       Effect.tlmWrite_BlinkingState (OnArg.valid On.ON),
       Effect.cmdResponse_out 7 1 CmdResponse.OK,
       Effect.tlmWrite_LedTransitions 1,
       Effect.pixels_setPixelColor 0 (Color 150 0 0),
       Effect.pixels_show,
       Effect.tlmWrite_BlinkingState (OnArg.valid On.ON)]) ∧
    (1 : Nat) ≤ 2 ^ 32 - 2 ∧ (1 + 1) % U32_MOD = 1 + 1 :=
  ⟨by decide,
   tick_count_no_overflow (2 ^ 64) 3
    [Op.BLINKING_ON_OFF 7 1 (OnArg.valid On.ON), Op.run (2 ^ 32 - 1) ParamValid.VALID]
    ({ state := On.ON, transitions := 1, count := 1, blinking := true },
      [Effect.pixels_begin,
       Effect.log_ACTIVITY_HI_SetBlinkingState (OnArg.valid On.ON),
       Effect.tlmWrite_BlinkingState (OnArg.valid On.ON),
       Effect.cmdResponse_out 7 1 CmdResponse.OK,
       Effect.tlmWrite_LedTransitions 1,
       Effect.pixels_setPixelColor 0 (Color 150 0 0),
       Effect.pixels_show,
       Effect.tlmWrite_BlinkingState (OnArg.valid On.ON)])
    (by decide) (by decide)⟩

end Components
